import Mathlib

/-!
# Verification of the order-fulfillment saga workflows

Shallow embedding of the two workflow-logic files of the repository
(`src/workflows/order.workflow.ts` and `src/workflows/fulfillment.workflow.ts`)
together with proofs of the specification claims about them.

Modelling conventions:
* JavaScript numbers are modelled as `ℚ` (all arithmetic in the embedded code
  is exact decimal/ratio arithmetic; no overflow or precision loss occurs at the
  magnitudes involved), and `Math.round` as `jsRound` (floor of `x + 1/2`,
  which is exactly JavaScript's rounding of finite values).
* `Array.prototype.indexOf` on the step-name arrays is modelled by `jsIndexOf`,
  returning `-1 : ℤ` when the element is absent, exactly as in JS.
* `Date` valued fields (`createdAt`, `updatedAt`, `estimatedDelivery`,
  `estimatedCompletion`) are real-time values irrelevant to every claim; they
  are omitted from the embedded records.
* Each workflow's interaction with its environment (which signals arrive, at
  which await-point they are observed, which activities fail) is captured by an
  explicit "plan" datum; the workflow body becomes a total function from the
  plan to the final record plus the list of external activity calls it issued.
-/

namespace OrderSagaModel

/-- JavaScript `Math.round` on a finite value: floor of `x + 1/2`
(rounds halves toward positive infinity, as JS does). -/
def jsRound (x : ℚ) : ℤ := ⌊x + 1/2⌋

/-- JavaScript `Array.prototype.indexOf` for string arrays: the index of the
first occurrence, or `-1` if the element does not occur. -/
def jsIndexOf : List String → String → ℤ
  | [], _ => -1
  | s :: rest, t =>
    if s = t then 0
    else
      let r := jsIndexOf rest t
      if r = -1 then -1 else r + 1

theorem jsIndexOf_ge_neg_one (l : List String) (t : String) : -1 ≤ jsIndexOf l t := by
  induction l with
  | nil => simp [jsIndexOf]
  | cons s rest ih =>
    simp only [jsIndexOf]
    split
    · norm_num
    · split
      · norm_num
      · omega

theorem jsIndexOf_lt_length (l : List String) (t : String) :
    jsIndexOf l t < l.length := by
  induction l with
  | nil => simp [jsIndexOf]
  | cons s rest ih =>
    simp only [jsIndexOf, List.length_cons]
    push_cast
    split
    · omega
    · split
      · omega
      · omega

theorem jsIndexOf_of_not_mem (l : List String) (t : String) (h : t ∉ l) :
    jsIndexOf l t = -1 := by
  induction l with
  | nil => simp [jsIndexOf]
  | cons s rest ih =>
    simp only [List.mem_cons, not_or] at h
    have hst : ¬ s = t := fun hs => h.1 hs.symm
    simp [jsIndexOf, hst, ih h.2]

/-! ## Data model of the fulfillment workflow (`fulfillment.workflow.ts`) -/

/-- A line item of a `FulfillmentRequest` / `OrderData`
(`productId`, `productName`, `quantity`, `price`). -/
structure LineItem where
  productId : String
  productName : String
  quantity : ℕ
  price : ℚ
  deriving DecidableEq, Repr

/-- `ShippingAddress` from `fulfillment.workflow.ts`. -/
structure ShippingAddress where
  street : String
  city : String
  state : String
  zipCode : String
  country : String
  deriving DecidableEq, Repr

/-- `FulfillmentRequest` from `fulfillment.workflow.ts` (the payload of the
`startFulfillment` signal). `orderWorkflowId` is the optional parent workflow
id used to route the completion signal. -/
structure FulfillmentRequest where
  orderId : String
  customerId : String
  customerEmail : String
  customerName : String
  items : List LineItem
  totalAmount : ℚ
  shippingAddress : ShippingAddress
  paymentId : String
  reservationIds : List String
  orderWorkflowId : Option String
  deriving DecidableEq, Repr

/-- The `status` union type of `FulfillmentStatus`. -/
inductive FStatus
  | WAITING
  | PICKING
  | PACKING
  | READY_TO_SHIP
  | SHIPPED
  | PAUSED
  | CANCELLED
  | FAILED
  deriving DecidableEq, Repr

/-- `FulfillmentStatus` from `fulfillment.workflow.ts`, without the two `Date`
fields (`createdAt`, `updatedAt`) and the `Date` valued `estimatedDelivery`,
which are wall-clock timestamps outside the embedded state. -/
structure FulfillmentStatus where
  orderId : String
  status : FStatus
  currentStep : String
  trackingNumber : Option String := none
  shippingCarrier : Option String := none
  isPaused : Bool
  cancellationReason : Option String := none
  error : Option String := none
  deriving DecidableEq, Repr

/-- `FulfillmentProgress` from `fulfillment.workflow.ts`, without the `Date`
valued `estimatedCompletion`. -/
structure FulfillmentProgress where
  orderId : String
  currentStep : ℤ
  totalSteps : ℕ
  stepName : String
  percentage : ℤ
  itemsPicked : ℕ
  totalItems : ℕ
  deriving DecidableEq, Repr

/-- The `steps` array inside the `getFulfillmentProgress` query handler. -/
def fulfillmentQuerySteps : List String :=
  [ "Waiting for fulfillment request"
  , "Starting order picking"
  , "Picking items"
  , "Quality check"
  , "Packing items"
  , "Generating shipping label"
  , "Ready for pickup"
  , "Shipped" ]

/-- The `getFulfillmentProgress` query handler, as a pure function of the
workflow-local state it reads: `fulfillmentStatus.currentStep`, the optional
`fulfillmentRequest`, and the `itemsPicked` counter.  Mirrors the handler at
`fulfillment.workflow.ts` lines 189–223 (JS division by an empty item count is
outside the states the claims quantify over; in `ℚ`, `x / 0 = 0`). -/
def getFulfillmentProgress (orderId : String) (currentStep : String)
    (fulfillmentRequest : Option FulfillmentRequest) (itemsPicked : ℕ) :
    FulfillmentProgress :=
  let steps := fulfillmentQuerySteps
  let currentStepIndex := jsIndexOf steps currentStep
  let percentage : ℚ :=
    match fulfillmentRequest with
    | some req =>
        max (((currentStepIndex : ℚ) + 1) / (steps.length : ℚ) * 100)
            ((itemsPicked : ℚ) / (req.items.length : ℚ) * 50)
    | none => 0
  { orderId := orderId
    currentStep := max (currentStepIndex + 1) 1
    totalSteps := steps.length
    stepName := currentStep
    percentage := jsRound percentage
    itemsPicked := itemsPicked
    totalItems := (fulfillmentRequest.map (fun r => r.items.length)).getD 0 }

/-- The per-item step label written during the picking loop:
`` `Picked ${itemsPicked}/${fulfillmentRequest.items.length} items` ``. -/
def pickedStepLabel (k n : ℕ) : String :=
  "Picked " ++ toString k ++ "/" ++ toString n ++ " items"

/-- The per-item picking labels are not among the names in the query handler's
`steps` array (they all start with the seven characters `"Picked "`, which no
step name does). This is what makes `indexOf` return `-1` for them. -/
theorem pickedStepLabel_not_mem (k n : ℕ) :
    pickedStepLabel k n ∉ fulfillmentQuerySteps := by
  intro hmem
  simp only [fulfillmentQuerySteps, List.mem_cons, List.not_mem_nil, or_false] at hmem
  rcases hmem with h | h | h | h | h | h | h | h <;>
  · rw [pickedStepLabel, String.ext_iff] at h
    simp only [String.data_append] at h
    simp at h

theorem jsRound_mono {x y : ℚ} (h : x ≤ y) : jsRound x ≤ jsRound y :=
  Int.floor_le_floor (by linarith)

/-- The percentage computed by the query handler when a request is present,
as the rounded max of the step-index blend and the items-picked blend. -/
theorem percentage_def (oid step : String) (req : FulfillmentRequest) (picked : ℕ) :
    (getFulfillmentProgress oid step (some req) picked).percentage =
      jsRound (max (((jsIndexOf fulfillmentQuerySteps step : ℚ) + 1) / 8 * 100)
                   ((picked : ℚ) / (req.items.length : ℚ) * 50)) := rfl

/-- Before any `startFulfillment` signal (`fulfillmentRequest === null`),
the reported percentage is `0`. -/
theorem percentage_of_no_request (oid step : String) (picked : ℕ) :
    (getFulfillmentProgress oid step none picked).percentage = 0 := by
  show jsRound 0 = 0
  norm_num [jsRound]

/-! ## The sequence of query-visible states along an uninterrupted run

For claim C6 we record, in order, every workflow-local state the main
sequence of `fulfillmentWorkflow` passes through when no pause or cancel
signal is ever delivered and no activity fails: each entry is the pair of
the `fulfillmentRequest` reference and the `currentStep` label together with
the `itemsPicked` counter at that point, which is exactly the state the
`getFulfillmentProgress` query reads. -/

/-- Query-relevant states of an uninterrupted (`no pause/cancel`) run of
`fulfillmentWorkflow` whose `startFulfillment` signal carries `req`, in
program order: the initial wait, the signal handler's label, the loop entry
label, one label per picked item, then quality check, packing, label
generation, ready-for-pickup and shipped. -/
def normalRunStates (req : FulfillmentRequest) :
    List (Option FulfillmentRequest × String × ℕ) :=
  let n := req.items.length
  (none, "Waiting for fulfillment request", 0) ::
  (some req, "Starting order picking", 0) ::
  (some req, "Picking items", 0) ::
  (((List.range n).map (fun k => (some req, pickedStepLabel (k + 1) n, k + 1))) ++
    [ (some req, "Quality check", n)
    , (some req, "Packing items", n)
    , (some req, "Generating shipping label", n)
    , (some req, "Ready for pickup", n)
    , (some req, "Shipped", n) ])

/-- The successive `getFulfillmentProgress().percentage` values along an
uninterrupted run. -/
def normalRunPercentages (oid : String) (req : FulfillmentRequest) : List ℤ :=
  (normalRunStates req).map
    (fun s => (getFulfillmentProgress oid s.2.1 s.1 s.2.2).percentage)

theorem jsIndexOf_pickedStepLabel (k n : ℕ) :
    jsIndexOf fulfillmentQuerySteps (pickedStepLabel k n) = -1 :=
  jsIndexOf_of_not_mem _ _ (pickedStepLabel_not_mem k n)

theorem pct_waiting (oid : String) :
    (getFulfillmentProgress oid "Waiting for fulfillment request" none 0).percentage = 0 :=
  percentage_of_no_request ..

theorem pct_starting (oid : String) (req : FulfillmentRequest) :
    (getFulfillmentProgress oid "Starting order picking" (some req) 0).percentage = 25 := by
  rw [percentage_def,
    show jsIndexOf fulfillmentQuerySteps "Starting order picking" = 1 by decide]
  norm_num [jsRound]

theorem pct_picking_entry (oid : String) (req : FulfillmentRequest) :
    (getFulfillmentProgress oid "Picking items" (some req) 0).percentage = 38 := by
  rw [percentage_def,
    show jsIndexOf fulfillmentQuerySteps "Picking items" = 2 by decide]
  norm_num [jsRound]

/-- During the per-item loop the step label is not found in the query's
`steps` array, so only the items-picked blend contributes. -/
theorem pct_picked (oid : String) (req : FulfillmentRequest) (k : ℕ) :
    (getFulfillmentProgress oid (pickedStepLabel k req.items.length)
        (some req) k).percentage =
      jsRound ((k : ℚ) / (req.items.length : ℚ) * 50) := by
  rw [percentage_def, jsIndexOf_pickedStepLabel]
  norm_num
  rw [max_eq_right (by positivity)]

theorem pct_quality (oid : String) (req : FulfillmentRequest)
    (h : 1 ≤ req.items.length) :
    (getFulfillmentProgress oid "Quality check" (some req)
        req.items.length).percentage = 50 := by
  rw [percentage_def, show jsIndexOf fulfillmentQuerySteps "Quality check" = 3 by decide]
  have hn : ((req.items.length : ℚ)) ≠ 0 := by positivity
  rw [div_self hn]
  norm_num [jsRound]

theorem pct_packing (oid : String) (req : FulfillmentRequest)
    (h : 1 ≤ req.items.length) :
    (getFulfillmentProgress oid "Packing items" (some req)
        req.items.length).percentage = 63 := by
  rw [percentage_def, show jsIndexOf fulfillmentQuerySteps "Packing items" = 4 by decide]
  have hn : ((req.items.length : ℚ)) ≠ 0 := by positivity
  rw [div_self hn]
  norm_num [jsRound]

theorem pct_label (oid : String) (req : FulfillmentRequest)
    (h : 1 ≤ req.items.length) :
    (getFulfillmentProgress oid "Generating shipping label" (some req)
        req.items.length).percentage = 75 := by
  rw [percentage_def,
    show jsIndexOf fulfillmentQuerySteps "Generating shipping label" = 5 by decide]
  have hn : ((req.items.length : ℚ)) ≠ 0 := by positivity
  rw [div_self hn]
  norm_num [jsRound]

theorem pct_ready (oid : String) (req : FulfillmentRequest)
    (h : 1 ≤ req.items.length) :
    (getFulfillmentProgress oid "Ready for pickup" (some req)
        req.items.length).percentage = 88 := by
  rw [percentage_def, show jsIndexOf fulfillmentQuerySteps "Ready for pickup" = 6 by decide]
  have hn : ((req.items.length : ℚ)) ≠ 0 := by positivity
  rw [div_self hn]
  norm_num [jsRound]

theorem pct_shipped (oid : String) (req : FulfillmentRequest)
    (h : 1 ≤ req.items.length) :
    (getFulfillmentProgress oid "Shipped" (some req)
        req.items.length).percentage = 100 := by
  rw [percentage_def, show jsIndexOf fulfillmentQuerySteps "Shipped" = 7 by decide]
  have hn : ((req.items.length : ℚ)) ≠ 0 := by positivity
  rw [div_self hn]
  norm_num [jsRound]

/-- Closed form of the percentage sequence along an uninterrupted run with at
least one line item: `[0, 25, 38]`, then `round(50·k/n)` for `k = 1..n`, then
`[50, 63, 75, 88, 100]`. -/
theorem normalRunPercentages_eq (oid : String) (req : FulfillmentRequest)
    (h : 1 ≤ req.items.length) :
    normalRunPercentages oid req =
      0 :: 25 :: 38 ::
      (((List.range req.items.length).map
          (fun (k : ℕ) => jsRound (((k : ℚ) + 1) / (req.items.length : ℚ) * 50))) ++
        [50, 63, 75, 88, 100]) := by
  have hmap : ((List.range req.items.length).map
      (fun (k : ℕ) => (getFulfillmentProgress oid
        (pickedStepLabel (k + 1) req.items.length) (some req) (k + 1)).percentage)) =
      ((List.range req.items.length).map
        (fun (k : ℕ) => jsRound (((k : ℚ) + 1) / (req.items.length : ℚ) * 50))) := by
    apply List.map_congr_left
    intro k _
    rw [pct_picked]
    push_cast
    ring_nf
  unfold normalRunPercentages normalRunStates
  simp only [List.map_cons, List.map_append, List.map_map, List.map_nil,
    Function.comp_def]
  rw [pct_waiting, pct_starting, pct_picking_entry,
    pct_quality oid req h, pct_packing oid req h, pct_label oid req h,
    pct_ready oid req h, pct_shipped oid req h, hmap]

/-- A concrete three-item fulfillment request used for counterexamples and
witnesses. -/
def sampleAddress : ShippingAddress :=
  { street := "1 Main St", city := "Springfield", state := "IL"
    zipCode := "62701", country := "USA" }

def sampleItem (i : ℕ) : LineItem :=
  { productId := "PROD-" ++ toString i, productName := "Widget"
    quantity := 1, price := 10 }

def sampleRequest3 : FulfillmentRequest :=
  { orderId := "ORD-1", customerId := "CUST-1"
    customerEmail := "ada@example.com", customerName := "Ada"
    items := [sampleItem 1, sampleItem 2, sampleItem 3]
    totalAmount := 30, shippingAddress := sampleAddress
    paymentId := "PAY-1", reservationIds := ["RES-1", "RES-2"]
    orderWorkflowId := some "order-ORD-1" }

theorem normalRunPercentages_sample :
    normalRunPercentages "ORD-1" sampleRequest3 =
      [0, 25, 38, 17, 33, 50, 50, 63, 75, 88, 100] := by
  rw [normalRunPercentages_eq _ _ (by decide),
    show sampleRequest3.items.length = 3 from rfl]
  norm_num [List.range_succ, jsRound]

/-- C6: the claim as stated is false on the code.  For the three-item request,
the successive `getProgress()` percentages of an uninterrupted run are
`[0, 25, 38, 17, 33, 50, 50, 63, 75, 88, 100]`: the step label
`"Picked 1/3 items"` written by the picking loop is not in the query handler's
`steps` array, so `indexOf` yields `-1` and the percentage drops from 38 to 17. -/
theorem fulfillment_progress_not_monotone :
    ¬ List.Chain' (· ≤ ·) (normalRunPercentages "ORD-1" sampleRequest3) := by
  rw [normalRunPercentages_sample]
  intro hch
  obtain ⟨-, h2⟩ := List.chain'_cons.mp hch
  obtain ⟨-, h3⟩ := List.chain'_cons.mp h2
  obtain ⟨h38, -⟩ := List.chain'_cons.mp h3
  exact absurd h38 (by norm_num)

/-- C6 (amended): along an uninterrupted run the percentage sequence is
non-decreasing on the prefix before the per-item picking updates and
non-decreasing from the first per-item update onward; only the single boundary
between `"Picking items"` and the first `"Picked k/n items"` label (which is
not in the query's step list) can decrease. -/
theorem fulfillment_progress_monotone_within_phases (oid : String)
    (req : FulfillmentRequest) (h : 1 ≤ req.items.length) :
    List.Chain' (· ≤ ·) ((normalRunPercentages oid req).take 3) ∧
    List.Chain' (· ≤ ·) ((normalRunPercentages oid req).drop 3) := by
  rw [normalRunPercentages_eq oid req h]
  have hn0 : (0 : ℚ) < (req.items.length : ℚ) := by positivity
  constructor
  · simp [List.take_succ_cons, List.chain'_cons]
  · simp only [List.drop_succ_cons, List.drop_zero]
    rw [List.chain'_append]
    obtain ⟨m, hm⟩ : ∃ m, req.items.length = m + 1 :=
      ⟨req.items.length - 1, by omega⟩
    refine ⟨?_, by simp [List.chain'_cons], ?_⟩
    · rw [hm, List.chain'_map, List.chain'_range_succ]
      intro j hj
      apply jsRound_mono
      rw [hm] at hn0
      gcongr
      · linarith
    · intro x hx y hy
      simp only [List.head?_cons, Option.mem_def, Option.some.injEq] at hy
      rw [hm, List.range_succ, List.map_append, List.map_cons, List.map_nil,
        List.getLast?_concat, Option.mem_def, Option.some.injEq] at hx
      have hx50 : x = 50 := by
        rw [← hx]
        push_cast
        rw [div_self (by positivity)]
        norm_num [jsRound]
      rw [hx50, ← hy]

/-- Witness for the amended C6 theorem at the concrete three-item request. -/
theorem fulfillment_progress_monotone_within_phases_witness :
    1 ≤ sampleRequest3.items.length ∧
    (List.Chain' (· ≤ ·) ((normalRunPercentages "ORD-1" sampleRequest3).take 3) ∧
     List.Chain' (· ≤ ·) ((normalRunPercentages "ORD-1" sampleRequest3).drop 3)) :=
  ⟨by decide,
   fulfillment_progress_monotone_within_phases "ORD-1" sampleRequest3 (by decide)⟩

theorem jsRound_nonneg {x : ℚ} (hx : 0 ≤ x) : 0 ≤ jsRound x := by
  have h := jsRound_mono hx
  have h0 : jsRound 0 = 0 := by norm_num [jsRound]
  omega

theorem jsRound_le_100 {x : ℚ} (hx : x ≤ 100) : jsRound x ≤ 100 := by
  have h := jsRound_mono hx
  have h0 : jsRound 100 = 100 := by norm_num [jsRound]
  omega

/-- C7: for every reachable query state (items picked never exceeds the item
count), the percentage reported by `getFulfillmentProgress` equals the rounded
maximum of the step-index-based blend and the items-picked-based blend, is an
integer between 0 and 100, and equals 0 while no fulfillment request has been
received. -/
theorem fulfillment_progress_percentage_formula (oid step : String)
    (req : FulfillmentRequest) (picked : ℕ)
    (h1 : 1 ≤ req.items.length) (h2 : picked ≤ req.items.length) :
    (getFulfillmentProgress oid step none picked).percentage = 0 ∧
    (getFulfillmentProgress oid step (some req) picked).percentage =
      jsRound (max
        (((jsIndexOf fulfillmentQuerySteps step : ℚ) + 1) /
          (fulfillmentQuerySteps.length : ℚ) * 100)
        ((picked : ℚ) / (req.items.length : ℚ) * 50)) ∧
    0 ≤ (getFulfillmentProgress oid step (some req) picked).percentage ∧
    (getFulfillmentProgress oid step (some req) picked).percentage ≤ 100 := by
  have hlen : ((fulfillmentQuerySteps.length : ℚ)) = 8 := by norm_num [fulfillmentQuerySteps]
  have hn0 : (0 : ℚ) < (req.items.length : ℚ) := by positivity
  have hidx1 : (-1 : ℤ) ≤ jsIndexOf fulfillmentQuerySteps step :=
    jsIndexOf_ge_neg_one fulfillmentQuerySteps step
  have hidx2 : jsIndexOf fulfillmentQuerySteps step < 8 := by
    have h := jsIndexOf_lt_length fulfillmentQuerySteps step
    simpa [fulfillmentQuerySteps] using h
  have hitem0 : (0 : ℚ) ≤ (picked : ℚ) / (req.items.length : ℚ) * 50 := by positivity
  have hitem50 : (picked : ℚ) / (req.items.length : ℚ) * 50 ≤ 50 := by
    have hp : (picked : ℚ) ≤ (req.items.length : ℚ) := by exact_mod_cast h2
    rw [div_mul_eq_mul_div, div_le_iff₀ hn0]
    nlinarith
  have hstep0 : (0 : ℚ) ≤ ((jsIndexOf fulfillmentQuerySteps step : ℚ) + 1) / 8 * 100 := by
    have : (0 : ℚ) ≤ (jsIndexOf fulfillmentQuerySteps step : ℚ) + 1 := by
      exact_mod_cast by omega
    positivity
  have hstep100 : ((jsIndexOf fulfillmentQuerySteps step : ℚ) + 1) / 8 * 100 ≤ 100 := by
    have h8 : ((jsIndexOf fulfillmentQuerySteps step : ℚ) + 1) ≤ 8 := by
      exact_mod_cast by omega
    rw [div_mul_eq_mul_div, div_le_iff₀ (by norm_num : (0:ℚ) < 8)]
    nlinarith
  refine ⟨percentage_of_no_request oid step picked, ?_, ?_, ?_⟩
  · rw [percentage_def, hlen]
  · rw [percentage_def]
    exact jsRound_nonneg (le_max_of_le_right hitem0)
  · rw [percentage_def]
    exact jsRound_le_100 (max_le hstep100 (by linarith))

/-- Witness for the C7 theorem: the query evaluated at the `"Quality check"`
state of the three-item request with two items picked. -/
theorem fulfillment_progress_percentage_formula_witness :
    (getFulfillmentProgress "ORD-1" "Quality check" none 2).percentage = 0 ∧
    (getFulfillmentProgress "ORD-1" "Quality check" (some sampleRequest3) 2).percentage =
      jsRound (max
        (((jsIndexOf fulfillmentQuerySteps "Quality check" : ℚ) + 1) /
          (fulfillmentQuerySteps.length : ℚ) * 100)
        ((2 : ℚ) / (sampleRequest3.items.length : ℚ) * 50)) ∧
    0 ≤ (getFulfillmentProgress "ORD-1" "Quality check" (some sampleRequest3) 2).percentage ∧
    (getFulfillmentProgress "ORD-1" "Quality check" (some sampleRequest3) 2).percentage ≤ 100 :=
  fulfillment_progress_percentage_formula "ORD-1" "Quality check" sampleRequest3 2
    (by decide) (by decide)

/-! ## Run model of `fulfillmentWorkflow`

The workflow body (lines 128–429) is a single `try`/`catch`: the `try` part
is the linear main sequence, the `catch` part builds the terminal record and
issues the best-effort compensation calls, and both paths `return` the record
(the function never throws to its caller).  A run is determined by:

* whether the initial `condition(() => fulfillmentRequest !== null || isCancelled)`
  wait ends by cancellation or by a delivered request,
* at which later observation point (if any) a delivered cancel signal is first
  observed by the main sequence, or at which sleep an unexpected error is
  injected (by which time a cancel signal may additionally have been delivered
  without having been observed at a checkpoint),
* the generated tracking number (time/randomness, passed in as data).

Pause/resume signals only make the main sequence wait at a checkpoint until
resumed or cancelled; runs modelled here are those in which every pause (if
any) was resumed before the next step, so `isPaused` is `false` at the end.

Cancellation observation points of a started run with `n` items, in program
order (`k` is the checkpoint number):
`k < n`: the `isCancelled` check at loop iteration `k` (itemsPicked = `k`);
`k = n`: the check before the quality-check sleep; `k = n+1`: before the
packing sleep; `k = n+2`: before tracking-number generation; `k = n+3`: after
`READY_TO_SHIP`, before the pickup wait.  A checkpoint number `≥ n+4` means
cancellation was never observed.  Unexpected-error injection points (`j`):
`j < n`: the pick sleep of iteration `j`; `j = n`: the quality sleep;
`j = n+1`: the packing sleep; `j = n+2`: the pickup wait; `≥ n+3`: no error. -/

/-- External activity calls issued by `fulfillmentWorkflow`. -/
inductive ExtCall
  | releaseReservation (reservationIds : List String)
  | cancellationEmail (orderId : String) (reason : String)
  | completionSignal (workflowId : String) (snapshot : FulfillmentStatus)
  deriving DecidableEq, Repr

/-- How a started main sequence is interrupted, if at all. -/
inductive Interrupt
  | cancelObserved (checkpoint : ℕ) (reason : String)
  | stepFailure (sleepIndex : ℕ) (message : String) (cancelDelivered : Option String)
  deriving DecidableEq, Repr

/-- The environment of one complete run: either the initial wait ended with
cancellation observed (the request may or may not also have been delivered
already), or a request was delivered and the main sequence ran with at most
one interruption. -/
inductive FulfillPlan
  | cancelledAtWait (reqAtCatch : Option FulfillmentRequest) (reason : String)
  | run (req : FulfillmentRequest) (tracking : String) (interrupt : Option Interrupt)
  deriving DecidableEq, Repr

/-- Outcome of a run: the returned `FulfillmentStatus` record and the
external calls issued after the terminal status was decided. -/
structure RunResult where
  record : FulfillmentStatus
  calls : List ExtCall
  deriving DecidableEq, Repr

/-- `currentStep` at cancellation checkpoint `k` of a run with `n` items. -/
def stepLabelAtCheckpoint (n k : ℕ) : String :=
  if k < n then (if k = 0 then "Picking items" else pickedStepLabel k n)
  else if k = n then "Quality check"
  else if k = n + 1 then "Packing items"
  else if k = n + 2 then "Generating shipping label"
  else "Ready for pickup"

/-- `currentStep` at sleep `j` of a run with `n` items. -/
def stepLabelAtSleep (n j : ℕ) : String :=
  if j < n then (if j = 0 then "Picking items" else pickedStepLabel j n)
  else if j = n then "Quality check"
  else if j = n + 1 then "Packing items"
  else "Ready for pickup"

/-- Lines 373–385 of the `catch` block: release the reservations in one call
if a request with a non-empty reservation list is present. -/
def releaseCalls (reqAtCatch : Option FulfillmentRequest) : List ExtCall :=
  match reqAtCatch with
  | some req =>
      if 0 < req.reservationIds.length then
        [ExtCall.releaseReservation req.reservationIds]
      else []
  | none => []

/-- Lines 387–409 of the `catch` block: send the cancellation email if
cancelled after at least one item was picked. -/
def emailCalls (reqAtCatch : Option FulfillmentRequest) (isCancelled : Bool)
    (cancellationReason : String) (itemsPicked : ℕ) : List ExtCall :=
  match reqAtCatch with
  | some req =>
      if isCancelled ∧ 0 < itemsPicked then
        [ExtCall.cancellationEmail req.orderId
           ("Fulfillment cancelled: " ++ cancellationReason)]
      else []
  | none => []

/-- Lines 411–425 of the `catch` block (and lines 346–360 of the success
path): send the completion signal if the request carries an
`orderWorkflowId`. -/
def signalCalls (reqAtCatch : Option FulfillmentRequest)
    (record : FulfillmentStatus) : List ExtCall :=
  match reqAtCatch.bind (fun r => r.orderWorkflowId) with
  | some wid => [ExtCall.completionSignal wid record]
  | none => []

/-- The `catch` block's best-effort calls (lines 372–425), in program order.
Each call is individually wrapped in `try`/`catch` in the source, so its own
failure does not affect the others or the returned record. -/
def compensationCalls (reqAtCatch : Option FulfillmentRequest) (isCancelled : Bool)
    (cancellationReason : String) (itemsPicked : ℕ) (record : FulfillmentStatus) :
    List ExtCall :=
  releaseCalls reqAtCatch ++
    emailCalls reqAtCatch isCancelled cancellationReason itemsPicked ++
    signalCalls reqAtCatch record

/-- The `catch` block (lines 363–427): set the terminal status
(`CANCELLED` if a cancel signal had been delivered, else `FAILED`), record
the reason and the thrown error's message, run the compensation calls, and
return the record. -/
def catchResult (orderId : String) (reqAtCatch : Option FulfillmentRequest)
    (isCancelled : Bool) (reason : String) (itemsPicked : ℕ)
    (stepAtThrow : String) (tracking : Option String) (errMsg : String) :
    RunResult :=
  let record : FulfillmentStatus :=
    { orderId := orderId
      status := if isCancelled then FStatus.CANCELLED else FStatus.FAILED
      currentStep := stepAtThrow
      trackingNumber := tracking
      shippingCarrier := if tracking.isSome then some "FastShip Express" else none
      isPaused := false
      cancellationReason := if isCancelled then some reason else none
      error := some errMsg }
  { record := record
    calls := compensationCalls reqAtCatch isCancelled reason itemsPicked record }

/-- The successful tail of the main sequence (lines 341–362): mark `SHIPPED`,
send the completion signal if an `orderWorkflowId` was supplied, return. -/
def successResult (orderId tracking : String) (req : FulfillmentRequest) :
    RunResult :=
  let record : FulfillmentStatus :=
    { orderId := orderId
      status := FStatus.SHIPPED
      currentStep := "Shipped"
      trackingNumber := some tracking
      shippingCarrier := some "FastShip Express"
      isPaused := false
      cancellationReason := none
      error := none }
  { record := record
    calls := signalCalls (some req) record }

/-- The whole `fulfillmentWorkflow` as a function of its run plan.  The
`_signalOk` flag stands for whether the completion-signal delivery activity
succeeds; the source catches and only logs its failure, so the result cannot
depend on it — which is exactly what claim C3's last part asserts. -/
def fulfillmentWorkflow (orderId : String) (plan : FulfillPlan)
    (_signalOk : Bool) : RunResult :=
  match plan with
  | FulfillPlan.cancelledAtWait reqAtCatch reason =>
      catchResult orderId reqAtCatch true reason 0
        (match reqAtCatch with
         | some _ => "Starting order picking"
         | none => "Waiting for fulfillment request")
        none ("Fulfillment cancelled: " ++ reason)
  | FulfillPlan.run req tracking interrupt =>
      let n := req.items.length
      match interrupt with
      | some (Interrupt.cancelObserved k reason) =>
          if k < n + 4 then
            catchResult orderId (some req) true reason (min k n)
              (stepLabelAtCheckpoint n k)
              (if k = n + 3 then some tracking else none)
              ("Fulfillment cancelled: " ++ reason)
          else successResult orderId tracking req
      | some (Interrupt.stepFailure j msg cancelDelivered) =>
          if j < n + 3 then
            catchResult orderId (some req) cancelDelivered.isSome
              (cancelDelivered.getD "") (min j n)
              (stepLabelAtSleep n j)
              (if j = n + 2 then some tracking else none)
              msg
          else successResult orderId tracking req
      | none => successResult orderId tracking req

/-- The `fulfillmentRequest` reference live at the end of a run. -/
def planRequest : FulfillPlan → Option FulfillmentRequest
  | FulfillPlan.cancelledAtWait reqAtCatch _ => reqAtCatch
  | FulfillPlan.run req _ _ => some req

def isCompletionSignal : ExtCall → Bool
  | ExtCall.completionSignal _ _ => true
  | _ => false

def isCancellationEmail : ExtCall → Bool
  | ExtCall.cancellationEmail _ _ => true
  | _ => false

def isRelease : ExtCall → Bool
  | ExtCall.releaseReservation _ => true
  | _ => false

theorem releaseCalls_filter_signal (reqAtCatch : Option FulfillmentRequest) :
    (releaseCalls reqAtCatch).filter isCompletionSignal = [] := by
  rcases reqAtCatch with _ | req
  · rfl
  · show (if 0 < req.reservationIds.length then
        [ExtCall.releaseReservation req.reservationIds] else []).filter
        isCompletionSignal = []
    split_ifs <;> rfl

theorem emailCalls_filter_signal (reqAtCatch : Option FulfillmentRequest)
    (isCancelled : Bool) (reason : String) (picked : ℕ) :
    (emailCalls reqAtCatch isCancelled reason picked).filter isCompletionSignal = [] := by
  rcases reqAtCatch with _ | req
  · rfl
  · show (if isCancelled ∧ 0 < picked then
        [ExtCall.cancellationEmail req.orderId
          ("Fulfillment cancelled: " ++ reason)] else []).filter
        isCompletionSignal = []
    split_ifs <;> rfl

theorem signalCalls_filter_signal (reqAtCatch : Option FulfillmentRequest)
    (record : FulfillmentStatus) :
    (signalCalls reqAtCatch record).filter isCompletionSignal =
      signalCalls reqAtCatch record := by
  unfold signalCalls
  rcases h : reqAtCatch.bind (fun r => r.orderWorkflowId) with _ | wid <;> rfl

theorem releaseCalls_countP_email (reqAtCatch : Option FulfillmentRequest) :
    (releaseCalls reqAtCatch).countP isCancellationEmail = 0 := by
  rcases reqAtCatch with _ | req
  · rfl
  · show (if 0 < req.reservationIds.length then
        [ExtCall.releaseReservation req.reservationIds] else []).countP
        isCancellationEmail = 0
    split_ifs <;> rfl

theorem signalCalls_countP_email (reqAtCatch : Option FulfillmentRequest)
    (record : FulfillmentStatus) :
    (signalCalls reqAtCatch record).countP isCancellationEmail = 0 := by
  unfold signalCalls
  rcases h : reqAtCatch.bind (fun r => r.orderWorkflowId) with _ | wid <;> rfl

theorem emailCalls_countP_email_pos (req : FulfillmentRequest)
    (reason : String) (picked : ℕ) (h : 0 < picked) :
    (emailCalls (some req) true reason picked).countP isCancellationEmail = 1 := by
  show (if (true : Bool) ∧ 0 < picked then
      [ExtCall.cancellationEmail req.orderId
        ("Fulfillment cancelled: " ++ reason)] else []).countP
      isCancellationEmail = 1
  rw [if_pos ⟨rfl, h⟩]
  rfl

theorem emailCalls_countP_email_zero_of_notpicked (req : FulfillmentRequest)
    (isCancelled : Bool) (reason : String) :
    (emailCalls (some req) isCancelled reason 0).countP isCancellationEmail = 0 := by
  show (if isCancelled ∧ 0 < 0 then
      [ExtCall.cancellationEmail req.orderId
        ("Fulfillment cancelled: " ++ reason)] else []).countP
      isCancellationEmail = 0
  rw [if_neg (by simp)]
  rfl

theorem emailCalls_filter_release (reqAtCatch : Option FulfillmentRequest)
    (isCancelled : Bool) (reason : String) (picked : ℕ) :
    (emailCalls reqAtCatch isCancelled reason picked).filter isRelease = [] := by
  rcases reqAtCatch with _ | req
  · rfl
  · show (if isCancelled ∧ 0 < picked then
        [ExtCall.cancellationEmail req.orderId
          ("Fulfillment cancelled: " ++ reason)] else []).filter isRelease = []
    split_ifs <;> rfl

theorem signalCalls_filter_release (reqAtCatch : Option FulfillmentRequest)
    (record : FulfillmentStatus) :
    (signalCalls reqAtCatch record).filter isRelease = [] := by
  unfold signalCalls
  rcases h : reqAtCatch.bind (fun r => r.orderWorkflowId) with _ | wid <;> rfl

theorem releaseCalls_filter_release (req : FulfillmentRequest)
    (h : 0 < req.reservationIds.length) :
    (releaseCalls (some req)).filter isRelease =
      [ExtCall.releaseReservation req.reservationIds] := by
  show (if 0 < req.reservationIds.length then
      [ExtCall.releaseReservation req.reservationIds] else []).filter isRelease =
      [ExtCall.releaseReservation req.reservationIds]
  rw [if_pos h]
  rfl

theorem catchResult_calls (oid : String) (reqAtCatch : Option FulfillmentRequest)
    (isCancelled : Bool) (reason : String) (picked : ℕ) (stepAtThrow : String)
    (tracking : Option String) (errMsg : String) :
    (catchResult oid reqAtCatch isCancelled reason picked stepAtThrow tracking
        errMsg).calls =
      compensationCalls reqAtCatch isCancelled reason picked
        (catchResult oid reqAtCatch isCancelled reason picked stepAtThrow tracking
          errMsg).record := rfl

theorem compensationCalls_filter_signal (reqAtCatch : Option FulfillmentRequest)
    (isCancelled : Bool) (reason : String) (picked : ℕ) (record : FulfillmentStatus) :
    (compensationCalls reqAtCatch isCancelled reason picked record).filter
        isCompletionSignal = signalCalls reqAtCatch record := by
  unfold compensationCalls
  rw [List.filter_append, List.filter_append, releaseCalls_filter_signal,
    emailCalls_filter_signal, signalCalls_filter_signal, List.nil_append,
    List.nil_append]

theorem successResult_calls (oid tracking : String) (req : FulfillmentRequest) :
    (successResult oid tracking req).calls =
      signalCalls (some req) (successResult oid tracking req).record := rfl

/-- C3: on every run that reaches a terminal record, the completion-signal
calls issued are exactly one signal carrying the terminal record when the
request supplied an `orderWorkflowId`, and none otherwise; and the returned
record does not depend on whether the signal delivery succeeds. -/
theorem fulfillment_completion_signal_exactly_once (oid : String)
    (plan : FulfillPlan) (sOk : Bool) :
    (fulfillmentWorkflow oid plan sOk).calls.filter isCompletionSignal =
      (match (planRequest plan).bind (fun r => r.orderWorkflowId) with
       | some wid =>
           [ExtCall.completionSignal wid (fulfillmentWorkflow oid plan sOk).record]
       | none => []) ∧
    (∀ b : Bool,
      (fulfillmentWorkflow oid plan b).record = (fulfillmentWorkflow oid plan sOk).record) := by
  refine ⟨?_, fun b => rfl⟩
  rcases plan with ⟨reqAtCatch, reason⟩ | ⟨req, tracking, interrupt⟩
  · rw [show (fulfillmentWorkflow oid (FulfillPlan.cancelledAtWait reqAtCatch reason)
        sOk).calls = (catchResult oid reqAtCatch true reason 0
          (match reqAtCatch with
           | some _ => "Starting order picking"
           | none => "Waiting for fulfillment request")
          none ("Fulfillment cancelled: " ++ reason)).calls from rfl,
      catchResult_calls, compensationCalls_filter_signal]
    rfl
  · rcases interrupt with _ | intr
    · rw [show (fulfillmentWorkflow oid (FulfillPlan.run req tracking none) sOk).calls
          = (successResult oid tracking req).calls from rfl,
        successResult_calls, signalCalls_filter_signal]
      rfl
    · rcases intr with ⟨k, reason⟩ | ⟨j, msg, cancelDelivered⟩ <;>
        simp only [fulfillmentWorkflow, planRequest] <;>
        split_ifs <;>
        first
        | (rw [catchResult_calls, compensationCalls_filter_signal]; rfl)
        | (rw [successResult_calls, signalCalls_filter_signal]; rfl)

/-- C4: a cancel signal observed while the workflow is still `WAITING`
(no `startFulfillment` ever delivered) yields a terminal `CANCELLED` record
and no external calls at all: no release, no email, no completion signal. -/
theorem fulfillment_cancel_before_start (oid reason : String) (sOk : Bool) :
    (fulfillmentWorkflow oid (FulfillPlan.cancelledAtWait none reason) sOk).record.status
        = FStatus.CANCELLED ∧
    (fulfillmentWorkflow oid (FulfillPlan.cancelledAtWait none reason) sOk).calls = [] :=
  ⟨rfl, rfl⟩

/-- C5: a run cancelled at checkpoint `k ≥ 1` (so after picking began) with a
non-empty reservation list ends `CANCELLED`, issues exactly one cancellation
email and exactly one release call covering all the request's reservation ids;
a run cancelled at checkpoint 0 (before any item was picked) sends no email. -/
theorem fulfillment_cancel_during_picking (oid reason tracking : String)
    (req : FulfillmentRequest) (k : ℕ) (sOk : Bool)
    (hk1 : 1 ≤ k) (hk2 : k < req.items.length + 4)
    (hn : 1 ≤ req.items.length) (hres : req.reservationIds ≠ []) :
    (fulfillmentWorkflow oid
        (FulfillPlan.run req tracking (some (Interrupt.cancelObserved k reason)))
        sOk).record.status = FStatus.CANCELLED ∧
    ((fulfillmentWorkflow oid
        (FulfillPlan.run req tracking (some (Interrupt.cancelObserved k reason)))
        sOk).calls.countP isCancellationEmail = 1) ∧
    ((fulfillmentWorkflow oid
        (FulfillPlan.run req tracking (some (Interrupt.cancelObserved k reason)))
        sOk).calls.filter isRelease = [ExtCall.releaseReservation req.reservationIds]) ∧
    ((fulfillmentWorkflow oid
        (FulfillPlan.run req tracking (some (Interrupt.cancelObserved 0 reason)))
        sOk).calls.countP isCancellationEmail = 0) := by
  have hres' : 0 < req.reservationIds.length := List.length_pos.mpr hres
  have hpick : 0 < min k req.items.length := by omega
  refine ⟨?_, ?_, ?_, ?_⟩
  · simp only [fulfillmentWorkflow, if_pos hk2]
    rfl
  · simp only [fulfillmentWorkflow, if_pos hk2]
    rw [catchResult_calls]
    unfold compensationCalls
    rw [List.countP_append, List.countP_append, releaseCalls_countP_email,
      signalCalls_countP_email, emailCalls_countP_email_pos req _ _ hpick]
  · simp only [fulfillmentWorkflow, if_pos hk2]
    rw [catchResult_calls]
    unfold compensationCalls
    rw [List.filter_append, List.filter_append, releaseCalls_filter_release req hres',
      emailCalls_filter_release, signalCalls_filter_release, List.append_nil,
      List.append_nil]
  · have h04 : (0 : ℕ) < req.items.length + 4 := by omega
    simp only [fulfillmentWorkflow, if_pos h04]
    rw [catchResult_calls]
    unfold compensationCalls
    rw [List.countP_append, List.countP_append, releaseCalls_countP_email,
      signalCalls_countP_email, Nat.zero_min,
      emailCalls_countP_email_zero_of_notpicked]

/-- Witness for the C5 theorem at the three-item request, cancelled at
checkpoint 1 (after one item was picked). -/
theorem fulfillment_cancel_during_picking_witness :
    (fulfillmentWorkflow "ORD-1"
        (FulfillPlan.run sampleRequest3 "TRACK"
          (some (Interrupt.cancelObserved 1 "customer request")))
        true).record.status = FStatus.CANCELLED ∧
    ((fulfillmentWorkflow "ORD-1"
        (FulfillPlan.run sampleRequest3 "TRACK"
          (some (Interrupt.cancelObserved 1 "customer request")))
        true).calls.countP isCancellationEmail = 1) ∧
    ((fulfillmentWorkflow "ORD-1"
        (FulfillPlan.run sampleRequest3 "TRACK"
          (some (Interrupt.cancelObserved 1 "customer request")))
        true).calls.filter isRelease
      = [ExtCall.releaseReservation sampleRequest3.reservationIds]) ∧
    ((fulfillmentWorkflow "ORD-1"
        (FulfillPlan.run sampleRequest3 "TRACK"
          (some (Interrupt.cancelObserved 0 "customer request")))
        true).calls.countP isCancellationEmail = 0) :=
  fulfillment_cancel_during_picking "ORD-1" "customer request" "TRACK"
    sampleRequest3 1 true (by decide) (by decide) (by decide) (by decide)

/-- C10: the workflow returns on every path (in the model it is a total
function into `RunResult`) and the returned status is always one of
`SHIPPED`, `CANCELLED`, `FAILED`; and when an unexpected error interrupts the
main sequence after a cancel signal was delivered, `CANCELLED` takes
precedence over `FAILED`. -/
theorem fulfillment_workflow_total_terminal (oid : String) (plan : FulfillPlan)
    (sOk : Bool) :
    ((fulfillmentWorkflow oid plan sOk).record.status = FStatus.SHIPPED ∨
     (fulfillmentWorkflow oid plan sOk).record.status = FStatus.CANCELLED ∨
     (fulfillmentWorkflow oid plan sOk).record.status = FStatus.FAILED) ∧
    (∀ (req : FulfillmentRequest) (tracking : String) (j : ℕ) (msg r : String),
      plan = FulfillPlan.run req tracking
          (some (Interrupt.stepFailure j msg (some r))) →
      j < req.items.length + 3 →
      (fulfillmentWorkflow oid plan sOk).record.status = FStatus.CANCELLED) := by
  constructor
  · rcases plan with ⟨reqAtCatch, reason⟩ | ⟨req, tracking, interrupt⟩
    · right; left; rfl
    · rcases interrupt with _ | intr
      · left; rfl
      · rcases intr with ⟨k, reason⟩ | ⟨j, msg, cancelDelivered⟩ <;>
          simp only [fulfillmentWorkflow] <;> split_ifs
        all_goals try rcases cancelDelivered with _ | r
        all_goals first
          | (left; rfl)
          | (right; left; rfl)
          | (right; right; rfl)
  · rintro req tracking j msg r rfl hj
    simp only [fulfillmentWorkflow, if_pos hj]
    rfl

/-- Witness for the C10 theorem: a concrete run, plus the cancellation-takes-
precedence part at an unexpected error during the first pick sleep with a
cancel signal already delivered. -/
theorem fulfillment_workflow_total_terminal_witness :
    (((fulfillmentWorkflow "ORD-1"
        (FulfillPlan.run sampleRequest3 "TRACK"
          (some (Interrupt.stepFailure 0 "boom" (some "changed my mind"))))
        true).record.status = FStatus.SHIPPED ∨
      (fulfillmentWorkflow "ORD-1"
        (FulfillPlan.run sampleRequest3 "TRACK"
          (some (Interrupt.stepFailure 0 "boom" (some "changed my mind"))))
        true).record.status = FStatus.CANCELLED ∨
      (fulfillmentWorkflow "ORD-1"
        (FulfillPlan.run sampleRequest3 "TRACK"
          (some (Interrupt.stepFailure 0 "boom" (some "changed my mind"))))
        true).record.status = FStatus.FAILED) ∧
     (fulfillmentWorkflow "ORD-1"
        (FulfillPlan.run sampleRequest3 "TRACK"
          (some (Interrupt.stepFailure 0 "boom" (some "changed my mind"))))
        true).record.status = FStatus.CANCELLED) :=
  ⟨(fulfillment_workflow_total_terminal "ORD-1"
      (FulfillPlan.run sampleRequest3 "TRACK"
        (some (Interrupt.stepFailure 0 "boom" (some "changed my mind")))) true).1,
   (fulfillment_workflow_total_terminal "ORD-1"
      (FulfillPlan.run sampleRequest3 "TRACK"
        (some (Interrupt.stepFailure 0 "boom" (some "changed my mind")))) true).2
     sampleRequest3 "TRACK" 0 "boom" "changed my mind" rfl (by decide)⟩

/-! ## Order workflow model (`order.workflow.ts`, module-level `processOrder`)

The order workflow is a linear sequence of awaited activity calls inside one
`try`/`catch`; the `catch` sets `status = "failed"`, records the error, runs
`compensateOrder` and re-throws.  Signal and query handlers are registered
first and mutate the module-level variables `status`, `currentStep`,
`paymentId`, `shippingId`, `error`.

A run is determined by the outcome of each activity (the value returned, or
the error message after the proxy's retries are exhausted) and by the
await-point at which a `cancelOrder` signal (if any) is applied.  Await
points, in order: `0` the `reserveInventory` call, `1` the `processPayment`
call, `2` the `confirmReservation` call, `3` the `sendOrderConfirmation`
call, `4` the 30s sleep, `5` the `sendShippingNotification` call. -/

/-- `OrderData` from `src/interfaces` (the argument of `processOrder`). -/
structure OrderData where
  orderId : String
  customerId : String
  customerEmail : String
  customerName : String
  items : List LineItem
  totalAmount : ℚ
  shippingAddress : ShippingAddress
  paymentMethod : String
  deriving DecidableEq, Repr

/-- The module-level mutable workflow state of `order.workflow.ts`
(lines 221–226). -/
structure OrderState where
  status : String
  currentStep : String
  paymentId : Option String
  shippingId : Option String
  error : Option String
  deriving DecidableEq, Repr

/-- Initial values of the module-level variables. -/
def initialOrderState : OrderState :=
  { status := "processing", currentStep := "validation"
    paymentId := none, shippingId := none, error := none }

/-- The `cancelOrder` signal handler (lines 230–237): throws if the order is
already completed, otherwise sets `status = "cancelled"` and the error text.
It does not touch `currentStep`, and nothing else reads the flag. -/
def cancelOrderHandler (reason : String) (s : OrderState) :
    Except String OrderState :=
  if s.status = "completed" then Except.error "Cannot cancel completed order"
  else Except.ok { s with status := "cancelled"
                          error := some ("Cancelled: " ++ reason) }

/-- The `getProgress` query handler's `steps` array (lines 253–262, and
identically lines 142–151 of the class-based controller). -/
def orderQuerySteps : List String :=
  [ "validation"
  , "inventory_reservation"
  , "payment_processing"
  , "inventory_confirmation"
  , "email_notification"
  , "shipping_preparation"
  , "shipping_notification"
  , "completed" ]

/-- The `getProgress` query handler (lines 252–266):
`Math.round((currentIndex / (steps.length - 1)) * 100)`. -/
def getProgress (currentStep : String) : ℤ :=
  let steps := orderQuerySteps
  let currentIndex := jsIndexOf steps currentStep
  jsRound ((currentIndex : ℚ) / ((steps.length : ℚ) - 1) * 100)

/-- The progress formula the specification claims (C8), stated from the
spec's words for comparison with `getProgress`:
`(stepIndex+1)/totalSteps*100` against the same fixed step list. -/
def specClaimedOrderProgress (currentStep : String) : ℤ :=
  let steps := orderQuerySteps
  let currentIndex := jsIndexOf steps currentStep
  jsRound (((currentIndex : ℚ) + 1) / (steps.length : ℚ) * 100)

/-- External activity calls available to the order workflow through its
proxies (`InventoryActivities`, `PaymentActivities`, `EmailActivities`).
`releaseReservation` is part of `InventoryActivities`; the claims count how
often the workflow invokes it. -/
inductive OrderCall
  | reserveInventory (orderId : String)
  | processPayment (orderId : String)
  | confirmReservation (reservationId : String)
  | sendOrderConfirmation (email orderId paymentId : String)
  | sendShippingNotification (email orderId shippingId : String)
  | refundPayment (paymentId : String)
  | releaseReservation (reservationId : String)
  deriving DecidableEq, Repr

def isOrderRelease : OrderCall → Bool
  | OrderCall.releaseReservation _ => true
  | _ => false

def isRefund : OrderCall → Bool
  | OrderCall.refundPayment _ => true
  | _ => false

/-- `validateOrder` (lines 329–338): rejects a falsy `orderId`/`customerId`
and an empty item list. -/
def validateOrder (orderData : OrderData) : Except String Unit :=
  if orderData.orderId = "" ∨ orderData.customerId = "" then
    Except.error "Invalid order data"
  else if orderData.items.length = 0 then
    Except.error "Order must contain at least one item"
  else Except.ok ()

/-- `compensateOrder` (lines 345–356): refunds the payment if one was made
(its own failure is caught and only logged, so the call is recorded
unconditionally).  The release of inventory reservations is present in the
source only as the comment
`// Release inventory reservations, send failure notifications, etc.` —
no release call is made. -/
def compensateOrder (paymentId : Option String) : List OrderCall :=
  match paymentId with
  | some pid => [OrderCall.refundPayment pid]
  | none => []

instance {ε α : Type} [DecidableEq ε] [DecidableEq α] :
    DecidableEq (Except ε α) := fun x y =>
  match x, y with
  | Except.ok a, Except.ok b =>
      decidable_of_iff (a = b) ⟨fun h => h ▸ rfl, fun h => Except.ok.inj h⟩
  | Except.error a, Except.error b =>
      decidable_of_iff (a = b) ⟨fun h => h ▸ rfl, fun h => Except.error.inj h⟩
  | Except.ok _, Except.error _ => isFalse (fun h => Except.noConfusion h)
  | Except.error _, Except.ok _ => isFalse (fun h => Except.noConfusion h)

/-- Environment of one `processOrder` run: each awaited activity's outcome
(`ok` value, or the error message once the proxy's retries are exhausted),
the shipping id `scheduleShipping` produces, and the await point (if any) at
which a `cancelOrder(reason)` signal is applied to the workflow state. -/
structure OrderPlan where
  reserveOutcome : Except String String
  paymentOutcome : Except String String
  confirmOutcome : Except String Unit
  confirmationEmailOutcome : Except String Unit
  shippingId : String
  shippingEmailOutcome : Except String Unit
  cancelSignal : Option (ℕ × String)
  deriving DecidableEq, Repr

/-- Apply the `cancelOrder` handler to the state if the plan delivers the
signal at this await point (a handler throw is swallowed by the runtime and
leaves the state unchanged). -/
def applyCancel (cancelSignal : Option (ℕ × String)) (point : ℕ)
    (s : OrderState) : OrderState :=
  match cancelSignal with
  | some (p, reason) =>
      if p = point then
        match cancelOrderHandler reason s with
        | Except.ok s₂ => s₂
        | Except.error _ => s
      else s
  | none => s

/-- Outcome of one `processOrder` run: the final module-level state, the
activity calls issued in order, and either the returned string or the
re-thrown error message. -/
structure OrderRunResult where
  state : OrderState
  calls : List OrderCall
  outcome : Except String String
  deriving DecidableEq, Repr

/-- The `catch` block of `processOrder` (lines 319–326): set
`status = "failed"`, record the message, run `compensateOrder`, re-throw. -/
def catchOrder (s : OrderState) (msg : String) (calls : List OrderCall) :
    OrderRunResult :=
  let s₂ := { s with status := "failed", error := some msg }
  { state := s₂
    calls := calls ++ compensateOrder s₂.paymentId
    outcome := Except.error msg }

/-- `processOrder` (lines 228–327) as a function of the order data and the
run plan. -/
def processOrder (d : OrderData) (p : OrderPlan) : OrderRunResult :=
  let s0 := initialOrderState
  match validateOrder d with
  | Except.error msg => catchOrder s0 msg []
  | Except.ok _ =>
    let s1 := applyCancel p.cancelSignal 0
      { s0 with currentStep := "inventory_reservation" }
    let calls1 := [OrderCall.reserveInventory d.orderId]
    match p.reserveOutcome with
    | Except.error msg => catchOrder s1 msg calls1
    | Except.ok reservationId =>
      let s2 := applyCancel p.cancelSignal 1
        { s1 with currentStep := "payment_processing" }
      let calls2 := calls1 ++ [OrderCall.processPayment d.orderId]
      match p.paymentOutcome with
      | Except.error msg => catchOrder s2 msg calls2
      | Except.ok paymentId =>
        let s3 := applyCancel p.cancelSignal 2
          { s2 with currentStep := "inventory_confirmation"
                    paymentId := some paymentId }
        let calls3 := calls2 ++ [OrderCall.confirmReservation reservationId]
        match p.confirmOutcome with
        | Except.error msg => catchOrder s3 msg calls3
        | Except.ok _ =>
          let s4 := applyCancel p.cancelSignal 3
            { s3 with currentStep := "email_notification" }
          let calls4 := calls3 ++
            [OrderCall.sendOrderConfirmation d.customerEmail d.orderId paymentId]
          match p.confirmationEmailOutcome with
          | Except.error msg => catchOrder s4 msg calls4
          | Except.ok _ =>
            let s5 := applyCancel p.cancelSignal 4
              { s4 with currentStep := "shipping_preparation" }
            let s6 := { s5 with shippingId := some p.shippingId }
            let s7 := applyCancel p.cancelSignal 5
              { s6 with currentStep := "shipping_notification" }
            let calls5 := calls4 ++
              [OrderCall.sendShippingNotification d.customerEmail d.orderId
                p.shippingId]
            match p.shippingEmailOutcome with
            | Except.error msg => catchOrder s7 msg calls5
            | Except.ok _ =>
              { state := { s7 with status := "completed"
                                   currentStep := "completed" }
                calls := calls5
                outcome := Except.ok "completed" }

theorem getProgress_eval (s : String) :
    getProgress s = jsRound ((jsIndexOf orderQuerySteps s : ℚ) / 7 * 100) := by
  unfold getProgress
  norm_num [orderQuerySteps]

theorem specClaimedOrderProgress_eval (s : String) :
    specClaimedOrderProgress s =
      jsRound (((jsIndexOf orderQuerySteps s : ℚ) + 1) / 8 * 100) := by
  unfold specClaimedOrderProgress
  norm_num [orderQuerySteps]

/-- C8: the claim as stated is false on the code.  At the very first step
(`currentStep = "validation"`, step index 0) the query returns
`round(0/7·100) = 0`, while the claimed formula `(stepIndex+1)/totalSteps·100`
gives `round(1/8·100) = 13`. -/
theorem order_progress_formula_counterexample :
    getProgress "validation" = 0 ∧
    specClaimedOrderProgress "validation" = 13 ∧
    getProgress "validation" ≠ specClaimedOrderProgress "validation" := by
  have h0 : jsIndexOf orderQuerySteps "validation" = 0 := by decide
  have hg : getProgress "validation" = 0 := by
    rw [getProgress_eval, h0]
    norm_num [jsRound]
  have hs : specClaimedOrderProgress "validation" = 13 := by
    rw [specClaimedOrderProgress_eval, h0]
    norm_num [jsRound]
  refine ⟨hg, hs, ?_⟩
  rw [hg, hs]
  decide

/-- C8 (amended): the order progress query computes
`round(stepIndex / (totalSteps - 1) · 100)` against the fixed eight-name step
list, i.e. the step names map to `[0, 14, 29, 43, 57, 71, 86, 100]`. -/
theorem order_progress_formula :
    (∀ s : String, getProgress s =
      jsRound ((jsIndexOf orderQuerySteps s : ℚ) /
        ((orderQuerySteps.length : ℚ) - 1) * 100)) ∧
    orderQuerySteps.map getProgress = [0, 14, 29, 43, 57, 71, 86, 100] := by
  refine ⟨fun s => rfl, ?_⟩
  show List.map getProgress
      [ "validation", "inventory_reservation", "payment_processing"
      , "inventory_confirmation", "email_notification", "shipping_preparation"
      , "shipping_notification", "completed" ] = _
  simp only [List.map_cons, List.map_nil]
  rw [getProgress_eval, getProgress_eval, getProgress_eval, getProgress_eval,
    getProgress_eval, getProgress_eval, getProgress_eval, getProgress_eval,
    show jsIndexOf orderQuerySteps "validation" = 0 from by decide,
    show jsIndexOf orderQuerySteps "inventory_reservation" = 1 from by decide,
    show jsIndexOf orderQuerySteps "payment_processing" = 2 from by decide,
    show jsIndexOf orderQuerySteps "inventory_confirmation" = 3 from by decide,
    show jsIndexOf orderQuerySteps "email_notification" = 4 from by decide,
    show jsIndexOf orderQuerySteps "shipping_preparation" = 5 from by decide,
    show jsIndexOf orderQuerySteps "shipping_notification" = 6 from by decide,
    show jsIndexOf orderQuerySteps "completed" = 7 from by decide]
  norm_num [jsRound]

/-- The state fragment touched by the `cancelFulfillment` signal handler of
`fulfillment.workflow.ts` (lines 171–177): the `isCancelled` flag, the
`cancellationReason` variable, and the shared `fulfillmentStatus` record. -/
structure FulfillmentSignalState where
  isCancelled : Bool
  cancellationReason : String
  record : FulfillmentStatus
  deriving DecidableEq, Repr

/-- The `cancelFulfillment` signal handler (lines 171–177). -/
def cancelFulfillmentHandler (reason : String) (s : FulfillmentSignalState) :
    FulfillmentSignalState :=
  { isCancelled := true
    cancellationReason := reason
    record := { s.record with status := FStatus.CANCELLED
                              cancellationReason := some reason } }

/-- C9: applying `cancel(reason)` twice with the same reason leaves the same
state as applying it once, for both processes.  The fulfillment handler is
literally idempotent and leaves status `CANCELLED`; the order handler, on any
not-yet-completed state, produces a `"cancelled"` state that the second
application maps to itself. -/
theorem cancel_signal_idempotent :
    (∀ (reason : String) (s : FulfillmentSignalState),
      cancelFulfillmentHandler reason (cancelFulfillmentHandler reason s) =
        cancelFulfillmentHandler reason s ∧
      (cancelFulfillmentHandler reason s).record.status = FStatus.CANCELLED) ∧
    (∀ (reason : String) (s : OrderState), s.status ≠ "completed" →
      ∃ s₁, cancelOrderHandler reason s = Except.ok s₁ ∧
        cancelOrderHandler reason s₁ = Except.ok s₁ ∧
        s₁.status = "cancelled") := by
  refine ⟨fun reason s => ⟨rfl, rfl⟩, fun reason s h => ?_⟩
  refine ⟨{ s with status := "cancelled"
                   error := some ("Cancelled: " ++ reason) }, ?_, ?_, rfl⟩
  · unfold cancelOrderHandler
    rw [if_neg h]
  · unfold cancelOrderHandler
    rw [if_neg (fun hcon =>
      absurd (show "cancelled" = "completed" from hcon) (by decide))]

/-- Witness for the C9 theorem: double cancellation of a fresh order state. -/
theorem cancel_signal_idempotent_witness :
    initialOrderState.status ≠ "completed" ∧
    ∃ s₁, cancelOrderHandler "changed my mind" initialOrderState = Except.ok s₁ ∧
      cancelOrderHandler "changed my mind" s₁ = Except.ok s₁ ∧
      s₁.status = "cancelled" :=
  ⟨by decide,
   cancel_signal_idempotent.2 "changed my mind" initialOrderState (by decide)⟩

/-- A concrete valid order used for the order-workflow runs. -/
def sampleOrderData : OrderData :=
  { orderId := "ORD-1", customerId := "CUST-1"
    customerEmail := "ada@example.com", customerName := "Ada"
    items := [sampleItem 1, sampleItem 2]
    totalAmount := 20, shippingAddress := sampleAddress
    paymentMethod := "CREDIT_CARD" }

/-- All activities succeed; a `cancelOrder("changed my mind")` signal is
applied at await point 1 (during the payment call), long before any terminal
status. -/
def cancelMidRunPlan : OrderPlan :=
  { reserveOutcome := Except.ok "RES-ORD-1-1"
    paymentOutcome := Except.ok "PAY-ORD-1-1"
    confirmOutcome := Except.ok ()
    confirmationEmailOutcome := Except.ok ()
    shippingId := "SHIP-ORD-1-1"
    shippingEmailOutcome := Except.ok ()
    cancelSignal := some (1, "changed my mind") }

/-- C1: evaluation at the failing input.  The `cancelOrder` handler does set
`status = "cancelled"` when the signal is applied, but `processOrder` never
reads any cancellation flag at its step boundaries: the run continues, issues
no compensation call, overwrites the status with `"completed"` and returns
normally — only the stale `error` text left by the handler betrays that the
signal arrived.  The claimed unwind-to-CANCELLED behaviour does not happen. -/
theorem order_cancel_signal_overwritten :
    (applyCancel (some (1, "changed my mind")) 1
      { initialOrderState with currentStep := "payment_processing" }).status =
        "cancelled" ∧
    (processOrder sampleOrderData cancelMidRunPlan).state.status = "completed" ∧
    (processOrder sampleOrderData cancelMidRunPlan).outcome =
      Except.ok "completed" ∧
    (processOrder sampleOrderData cancelMidRunPlan).state.error =
      some "Cancelled: changed my mind" ∧
    (processOrder sampleOrderData cancelMidRunPlan).calls.countP isOrderRelease = 0 ∧
    (processOrder sampleOrderData cancelMidRunPlan).calls.countP isRefund = 0 := by
  refine ⟨by decide, by decide, by decide, by decide, by decide, by decide⟩

/-- The inventory reservation succeeds, then the payment activity fails
terminally; no cancel signal. -/
def paymentFailPlan : OrderPlan :=
  { reserveOutcome := Except.ok "RES-ORD-1-1"
    paymentOutcome := Except.error "Payment declined - insufficient funds"
    confirmOutcome := Except.ok ()
    confirmationEmailOutcome := Except.ok ()
    shippingId := "SHIP-ORD-1-1"
    shippingEmailOutcome := Except.ok ()
    cancelSignal := none }

/-- C2: evaluation at the failing input.  When payment fails after the
reservation was obtained, the workflow does reach `status = "failed"` with the
payment failure detail as the error, but it performs zero release-reservation
calls (and zero refunds, as no payment id was set): `compensateOrder` only
contains the reservation release as a comment. -/
theorem order_payment_failure_no_release :
    (processOrder sampleOrderData paymentFailPlan).state.status = "failed" ∧
    (processOrder sampleOrderData paymentFailPlan).state.error =
      some "Payment declined - insufficient funds" ∧
    (processOrder sampleOrderData paymentFailPlan).outcome =
      Except.error "Payment declined - insufficient funds" ∧
    (processOrder sampleOrderData paymentFailPlan).calls =
      [OrderCall.reserveInventory "ORD-1", OrderCall.processPayment "ORD-1"] ∧
    (processOrder sampleOrderData paymentFailPlan).calls.countP isOrderRelease = 0 := by
  refine ⟨by decide, by decide, by decide, by decide, by decide⟩

end OrderSagaModel
